import Mathlib

/-!
# Verification of the stash-logger buffering/delivery core

Shallow embedding of `src/index.js` (class `StashLogger`): the payload
builder `_nextWrite`, the retry controller `_sendPayload`, the transport
classification in `_makeRequest`, the write scheduler's completion
handlers in `_scheduleLogWrite`, the immediate-send path `_logImmediately`,
the constructor / `extend` option aliasing, and `attach` / `detach`.

JS numbers used as counters, sizes and timestamps are modelled as `Nat`
(all concrete values are non-negative integers); the single place the
source multiplies by the float literal `0.8` is modelled over `Rat`
(see `sendPayload`).  Fallible JS code (TypeError on property access of
`undefined`/`null`, missing methods) is modelled with explicit error
constructors.  Loops are embedded with a fuel argument that provably
suffices, so every definition evaluates in the kernel.
-/

namespace StashLogger

/-- A built log record, as produced by `_buildLog` (src/index.js:118-127):
`{level, message, time, topic}`.  `message` is already the serialized
`JSON.stringify({raw, context})` string; its contents are opaque to every
function verified here. -/
structure LogRecord where
  level : String
  message : String
  time : String
  topic : Option String
deriving DecidableEq, Repr

/-! ## Payload Builder: `_nextWrite` (src/index.js:189-201)

```js
_nextWrite() {
  const logs = this._bufferLogs;
  const {bufferMaxPayload} = this.options;
  let index = 0;
  let payload = '';
  while (payload.length < bufferMaxPayload && index < logs.length) {
    const pendingLogs = logs.slice(0, index);
    payload = this._package(pendingLogs);
    index++;
  }
  const remainingLogs = logs.slice(index);
  return {payload, remainingLogs};
}
```

Fidelity notes.
* `const logs = this._bufferLogs` binds the `_bufferLogs` METHOD: the
  instance has no own property of that name, so the lookup hits the
  prototype function `_bufferLogs(logs)` (one declared parameter).  The
  record buffer is the distinct property `this._logBuffer`, which this
  method never reads.  The embedding therefore types `logs` as a
  `LogsValue` — either a record array (what `this._logBuffer` would have
  supplied) or a function value — and gives `logs.length` and
  `logs.slice` their JS meanings on each: on a function, `.length` is
  the declared parameter count and `.slice` is `undefined`, so calling
  it throws a TypeError.  `nextWriteOnInstance` instantiates the loop at
  the value the source actually binds, `bufferLogsBinding`.
* `payload.length` is a number only when the payload is a string; the
  serializer is the abstract string-returning `package` (a configured
  `options.packagePayload`, src/index.js:152-153 — the default
  `_package` returns an object).  On the path the source actually takes
  the serializer is never reached.

The `while` loop increments `index` on every iteration and stops once
`index` reaches `logs.length`, so fuel `jsLength logs` bounds its
iteration count; when the fuel runs out the guard is false anyway, so
the fuel-exhausted branch returns the same state the guard test would. -/

/-- The runtime error kind this embedding distinguishes. -/
inductive JsError where
  | typeError
deriving DecidableEq, Repr

deriving instance DecidableEq for Except

/-- The JS value reachable through the `logs` binding in `_nextWrite`:
the record array the code means to read, or a function value (a method
picked off the prototype), described by its declared parameter count. -/
inductive LogsValue where
  | array (records : List LogRecord)
  | funcValue (arity : Nat)
deriving DecidableEq, Repr

/-- Semantics of JS `logs.length`: the element count of an array, or
the declared parameter count of a function. -/
def jsLength : LogsValue → Nat
  | .array records => records.length
  | .funcValue arity => arity

/-- Semantics of JS `logs.slice(0, k)`: the prefix of an array; on a
function value the `slice` property is `undefined` and the call throws
a TypeError. -/
def jsSliceTake : LogsValue → Nat → Except JsError (List LogRecord)
  | .array records, k => .ok (records.take k)
  | .funcValue _, _ => .error .typeError

/-- Semantics of JS `logs.slice(k)`: the suffix of an array; on a
function value the call throws a TypeError. -/
def jsSliceDrop : LogsValue → Nat → Except JsError (List LogRecord)
  | .array records, k => .ok (records.drop k)
  | .funcValue _, _ => .error .typeError

/-- What `const logs = this._bufferLogs` evaluates to on a `StashLogger`
instance: the prototype method `_bufferLogs(logs)` (src/index.js:147), a
function with one declared parameter — not the `_logBuffer` array. -/
def bufferLogsBinding : LogsValue := .funcValue 1

/-- The loop of `_nextWrite` (src/index.js:194-198): while the payload
so far is shorter than the bound and the index is below `logs.length`,
slice the prefix `logs.slice(0, index)`, package it, and increment the
index; a TypeError from the slice aborts the whole method. -/
def nextWriteAux (package : List LogRecord → String) (bufferMaxPayload : Nat)
    (logs : LogsValue) : Nat → Nat → String → Except JsError (Nat × String)
  | 0, index, payload => .ok (index, payload)
  | fuel + 1, index, payload =>
    if payload.length < bufferMaxPayload ∧ index < jsLength logs then
      match jsSliceTake logs index with
      | .error e => .error e
      | .ok pendingLogs =>
        nextWriteAux package bufferMaxPayload logs fuel (index + 1) (package pendingLogs)
    else
      .ok (index, payload)

/-- The method `_nextWrite` as a function of the value bound to `logs`:
run the loop from `index = 0`, `payload = ''`, then compute
`remainingLogs = logs.slice(index)` and return
`{payload, remainingLogs}` — unless a TypeError aborts it first. -/
def nextWrite (package : List LogRecord → String) (bufferMaxPayload : Nat)
    (logs : LogsValue) : Except JsError (String × List LogRecord) :=
  match nextWriteAux package bufferMaxPayload logs (jsLength logs) 0 "" with
  | .error e => .error e
  | .ok r =>
    match jsSliceDrop logs r.1 with
    | .error e => .error e
    | .ok remainingLogs => .ok (r.2, remainingLogs)

/-- The call `this._nextWrite()` on an instance whose `_logBuffer` holds
`buffer`: the source binds `logs` to the `_bufferLogs` method, so the
buffer contents never enter the computation. -/
def nextWriteOnInstance (package : List LogRecord → String)
    (bufferMaxPayload : Nat) (_buffer : Option (List LogRecord)) :
    Except JsError (String × List LogRecord) :=
  nextWrite package bufferMaxPayload bufferLogsBinding

/-- Modelled from the spec: the shrinking (halving) search the spec's
§4.1 describes for the Payload Builder and that claims C1/C2 assert —
start with the full buffer as the candidate prefix and, while the
serialized payload exceeds the bound, halve the candidate length by
integer floor division.  This definition follows the spec's words and is
used only to compare against the `nextWrite` embedded from the source.
The candidate at least halves on every step, so fuel `logs.length + 1`
suffices for every buffer this development evaluates it on. -/
def halvingBoundaryAux (package : List LogRecord → String) (bufferMaxPayload : Nat)
    (logs : List LogRecord) : Nat → Nat → Nat
  | 0, n => n
  | fuel + 1, n =>
    if bufferMaxPayload < (package (logs.take n)).length ∧ 0 < n then
      halvingBoundaryAux package bufferMaxPayload logs fuel (n / 2)
    else
      n

/-- Modelled from the spec: the prefix boundary of the spec's halving
search, starting from the full buffer. -/
def halvingBoundary (package : List LogRecord → String) (bufferMaxPayload : Nat)
    (logs : List LogRecord) : Nat :=
  halvingBoundaryAux package bufferMaxPayload logs (logs.length + 1) logs.length

/-! Concrete inputs used by counterexamples and witnesses: four records
whose serializer yields 5 characters per included record (so a packaged
prefix of `k` records has serialized length `5 * k`), with the bound 12. -/

/-- A sample built record. -/
def cRecord : LogRecord :=
  { level := "error", message := "m", time := "t", topic := none }

/-- A concrete serializer: each packaged record contributes 5 characters. -/
def cPackage (logs : List LogRecord) : String :=
  String.mk (List.replicate (5 * logs.length) 'a')

/-- A concrete buffer of four records. -/
def cLogs : List LogRecord := List.replicate 4 cRecord

/-! ## Transport: `_makeRequest` (src/index.js:228-266)

```js
_makeRequest(payload) {
  const {endpoint, bufferWriteTimeout} = this.options;
  return new Promise((resolve, reject) => {
    request.post(endpoint).send(payload).timeout(bufferWriteTimeout)
      .end((error, res) => {
        if (error) return reject(error);
        const {status} = res;
        if (status >= 500) {
          let message = `Server error ...`;
          const reason = new StashLoggerError(res.body.message || message);
          error.origin = 'server';
          return reject(reason);
        }
        if (status >= 400) {
          let message = ...; let recovery = null;
          if (status === 413) { message = ...; recovery = 'reduce-payload'; }
          const reason = new StashLoggerError(res.body.message || message);
          error.origin = 'client';
          error.recovery = recovery;
          return reject(reason);
        }
        resolve(res);
      });
  });
}
```

Transport convention modelled here (superagent 1.x, which this code
requires for its status-classification branches not to be dead code):
the `.end` callback receives a non-null `error` only for network or
timeout failures; when an HTTP response arrives — any status — `error`
is `null` and the response carries the status.  Consequences embedded
faithfully below:

* a network/timeout failure hits `if (error) return reject(error)`:
  the promise rejects with superagent's error object, which carries
  neither an `origin` nor a `recovery` property (nothing in this module
  sets them on an error that is ever delivered);
* an HTTP response with status ≥ 400 enters a classification branch
  which executes `error.origin = ...` with `error === null` — a
  TypeError that escapes the executor's callback before `reject(reason)`
  runs, so the promise never settles (the classified `reason`, and for
  413 the `recovery = 'reduce-payload'` hint, are computed but assigned
  to the null `error` object and lost);
* a status below 400 resolves with the response.
-/

/-- The two properties of a JS error object that this module ever reads:
`error.origin` and `error.recovery`. -/
structure ErrObj where
  origin : Option String
  recovery : Option String
deriving DecidableEq, Repr

/-- The error object superagent passes for a network or timeout failure:
it has no `origin` and no `recovery` property. -/
def transportErr : ErrObj := { origin := none, recovery := none }

/-- An HTTP response as read by the callback: its status and the
optional `res.body.message` override. -/
structure Response where
  status : Nat
  bodyMessage : Option String
deriving DecidableEq, Repr

/-- What superagent delivers to the `.end` callback for one attempt. -/
inductive TransportEvent where
  /-- network or timeout failure: callback `error` argument is non-null -/
  | networkFailure
  /-- an HTTP response arrived: callback `error` argument is null -/
  | httpResponse (res : Response)
deriving DecidableEq, Repr

/-- How a promise settles (or fails to). -/
inductive Settle (α : Type) where
  /-- `resolve` was called -/
  | resolved (v : α)
  /-- `reject` was called -/
  | rejected (e : ErrObj)
  /-- the callback threw before settling: the promise never settles -/
  | never
deriving DecidableEq, Repr

/-- The `.end` callback of `_makeRequest`, as a function of the
delivered transport event. -/
def makeRequestEnd (ev : TransportEvent) : Settle Response :=
  match ev with
  | .networkFailure => .rejected transportErr
  | .httpResponse res =>
    if 500 ≤ res.status then
      .never
    else if 400 ≤ res.status then
      .never
    else
      .resolved res

/-! ## Retry Controller: `_sendPayload` (src/index.js:203-226)

```js
_sendPayload(payload) {
  this._writeAttempts = (this._writeAttempts || 0) + 1;
  this._writePending = true;
  return this._makeRequest(payload)
    .then(res => {
      this._writeAttempts = 0;
      this._lastWrittenAt = Date.now();
    })
    .catch(error => {
      if (error && error.recovery === 'reduce-payload') {
        this.options.bufferMaxPayload = 0.8 * this.options.bufferMaxPayload;
      }
      if (this._writeAttempts >= this.options.bufferMaxWriteRetries) {
        return error;
      }
      return this._sendPayload(payload);
    })
    .finally(() => {
      this._writePending = false;
    });
}
```

Note the `catch` handler *returns* the error once the retry ceiling is
reached, so the promise chain FULFILLS with the error value; this method
never produces a rejected promise.  The `0.8 *` shrink is a JS
double-precision multiplication; it is modelled exactly as `(4/5 : Rat)`,
which is immaterial because the branch requires `error.recovery ===
'reduce-payload'` and no delivered error ever has that property (proved
in `sendPayload_error_untyped`). -/

/-- The mutable per-instance write state `_sendPayload` touches, plus
the two options it reads. -/
structure WriteState where
  writeAttempts : Nat
  writePending : Bool
  lastWrittenAt : Option Nat
  bufferMaxPayloadOpt : Rat
  bufferMaxWriteRetries : Nat
deriving DecidableEq, Repr

/-- How one `_sendPayload` promise chain ends. -/
inductive SendOutcome where
  /-- fulfilled with `undefined` (the success path's `then` handler) -/
  | fulfilledOk
  /-- fulfilled with the error value (the retry-ceiling `return error`) -/
  | fulfilledWithError (e : ErrObj)
  /-- the promise rejected -/
  | rejectedWith (e : ErrObj)
  /-- the promise never settles -/
  | neverSettles
deriving DecidableEq, Repr

/-- Result of running `_sendPayload`: how the chain settles, the final
write state, and how many `_makeRequest` attempts were made. -/
structure SendFinal where
  outcome : SendOutcome
  state : WriteState
  attemptsMade : Nat
deriving DecidableEq, Repr

/-- The `.finally(() => { this._writePending = false; })` handler of an
enclosing `_sendPayload` call: it runs — and clears the pending flag —
exactly when the inner chain settles. -/
def applyFinally (r : SendFinal) : SendFinal :=
  match r.outcome with
  | .neverSettles => r
  | _ => { r with state := { r.state with writePending := false } }

/-- Semantics of `_sendPayload` over the sequence of transport events its successive
attempts observe (one list entry per `_makeRequest` call; an exhausted
list means the request is still in flight, so the chain never settles).
`now` is the `Date.now()` of the success handler. -/
def sendPayload (now : Nat) (st : WriteState) : List TransportEvent → SendFinal
  | [] =>
    { outcome := .neverSettles,
      state := { st with writeAttempts := st.writeAttempts + 1, writePending := true },
      attemptsMade := 1 }
  | ev :: rest =>
    let st1 : WriteState :=
      { st with writeAttempts := st.writeAttempts + 1, writePending := true }
    match makeRequestEnd ev with
    | .resolved _ =>
      { outcome := .fulfilledOk,
        state := { st1 with writeAttempts := 0, lastWrittenAt := some now, writePending := false },
        attemptsMade := 1 }
    | .never =>
      { outcome := .neverSettles, state := st1, attemptsMade := 1 }
    | .rejected e =>
      let st2 : WriteState :=
        if e.recovery = some "reduce-payload" then
          { st1 with bufferMaxPayloadOpt := (4 / 5 : Rat) * st1.bufferMaxPayloadOpt }
        else st1
      if st2.bufferMaxWriteRetries ≤ st2.writeAttempts then
        { outcome := .fulfilledWithError e,
          state := { st2 with writePending := false },
          attemptsMade := 1 }
      else
        let r := applyFinally (sendPayload now st2 rest)
        { r with attemptsMade := r.attemptsMade + 1 }

/-! ## Write Scheduler completion: `_scheduleLogWrite` (src/index.js:162-187)

```js
return this._sendPayload(write.payload)
  .then(() => {
    this._logBuffer = write.remainingLogs;
  })
  .catch(reason => {
    if (reason.origin === 'server') {
      this._logBuffer = write.remainingLogs;
    } else {
      const message = 'Client-side logging error; fix ASAP';
      const error = reason || new StashLoggerError(message);
      throw error;
    }
  });
```

The `then` handler fires on ANY fulfillment of `_sendPayload` — both the
success path and the retry-ceiling path that fulfills with the error
value — and the `catch` handler fires only on rejection. -/

/-- How the scheduled write's completion chain ends. -/
inductive ScheduleOutcome where
  /-- completion handler ran and returned normally -/
  | fulfilled
  /-- the `catch` rethrew: a fatal error surfaces to the caller -/
  | rejectedFatal (e : ErrObj)
  /-- the underlying send never settles, so neither handler ever runs -/
  | neverSettles
deriving DecidableEq, Repr

/-- The completion handlers of `_scheduleLogWrite`, as a function of the
current `_logBuffer` (`none` = still undefined), the computed
`write.remainingLogs`, and how `_sendPayload` settled.  Returns the
buffer afterwards and what surfaced. -/
def scheduleWriteCompletion (logBuffer : Option (List LogRecord))
    (remainingLogs : List LogRecord) :
    SendOutcome → Option (List LogRecord) × ScheduleOutcome
  | .fulfilledOk => (some remainingLogs, .fulfilled)
  | .fulfilledWithError _ => (some remainingLogs, .fulfilled)
  | .rejectedWith e =>
    if e.origin = some "server" then
      (some remainingLogs, .fulfilled)
    else
      (logBuffer, .rejectedFatal e)
  | .neverSettles => (logBuffer, .neverSettles)

/-- The write state of a freshly constructed root logger under the
module defaults: `_writeAttempts` and `_writePending` are undefined
(read as `0` via `|| 0` and falsy, respectively), `_lastWrittenAt`
undefined, `bufferMaxPayload = 15 * 1024 = 15360`, and
`bufferMaxWriteRetries = 3` (src/index.js:3-23). -/
def freshWriteState : WriteState :=
  { writeAttempts := 0, writePending := false, lastWrittenAt := none,
    bufferMaxPayloadOpt := 15360, bufferMaxWriteRetries := 3 }

/-- The write state a retry-ceiling-exhausted send leaves behind (three
network failures from a fresh default state): a terminal failure does
not reset `_writeAttempts`. -/
def stAfterTerminal : WriteState :=
  (sendPayload 0 freshWriteState (List.replicate 3 .networkFailure)).state

/-! ## Constructor, `extend`, and the shared options object
(src/index.js:3-23, 32-49, 84-86)

```js
const loggerDefaults = { logLevel: 'error', logLevels: [...], ... };

constructor(parent, options) {
  if (!(parent instanceof StashLogger)) { options = parent; parent = null; }
  this.options = Object.assign(loggerDefaults, options || {});
  this.parent = parent;
  this.options.logLevels.forEach(level => { this[level] = ...; this[`...Immediately`] = ...; });
}

extend(options) {
  return new StashLogger(this, Object.assign(this.options, options));
}
```

`Object.assign(target, src)` copies `src`'s own enumerable properties
onto `target`, MUTATING `target`, and returns `target` itself (the same
reference).  The constructor's target is the module-level
`loggerDefaults` object, so every constructed logger stores a reference
to that one object; `extend`'s target is the parent's (same) object.
Objects are modelled by identity: a heap maps object ids to property
maps, and an options property map is an association list with leftmost
occurrence authoritative (`optAssign tgt src = src ++ tgt` makes `src`'s
keys override `tgt`'s under leftmost lookup, matching `Object.assign`). -/

/-- A JS value stored in an options object, as far as the defaults and
the verified code need. -/
inductive OptVal where
  | str (s : String)
  | num (n : Int)
  | strList (l : List String)
  | boolean (b : Bool)
  | emptyObj
  | nil
deriving DecidableEq, Repr

/-- An object's own enumerable properties; leftmost binding wins. -/
abbrev OptMap := List (String × OptVal)

/-- Property read. -/
def optLookup (m : OptMap) (k : String) : Option OptVal :=
  List.lookup k m

/-- The contents `Object.assign(target, src)` leaves in `target`. -/
def optAssign (target src : OptMap) : OptMap :=
  src ++ target

/-- Object identities. -/
abbrev ObjId := Nat

/-- The object heap: id to current contents, leftmost binding wins. -/
abbrev Heap := List (ObjId × OptMap)

/-- Current contents of an object. -/
def heapGet (h : Heap) (i : ObjId) : OptMap :=
  (List.lookup i h).getD []

/-- Semantics of `Object.assign(target, srcProps)`: mutates `target` on the heap and
returns, along with the heap, the id of `target` itself. -/
def objectAssign (h : Heap) (target : ObjId) (srcProps : OptMap) : Heap × ObjId :=
  ((target, optAssign (heapGet h target) srcProps) :: h, target)

/-- The heap id of the module-level `loggerDefaults` object. -/
def defaultsId : ObjId := 0

/-- The initial contents of `loggerDefaults` (src/index.js:3-23);
`handleWindow`/`handleProcess` depend on the host environment. -/
def loggerDefaultsMap (handleWindow handleProcess : Bool) : OptMap :=
  [("logLevel", .str "error"),
   ("logLevels", .strList ["log", "info", "warn", "error"]),
   ("bufferMaxPayload", .num 15360),
   ("bufferCheckInterval", .num 250),
   ("bufferWriteInterval", .num 1000),
   ("bufferWriteTimeout", .num 10000),
   ("bufferMaxWriteRetries", .num 3),
   ("appId", .nil),
   ("topic", .nil),
   ("context", .emptyObj),
   ("handleWindow", .boolean handleWindow),
   ("handleProcess", .boolean handleProcess)]

/-- A `StashLogger` instance's own properties, as the constructor leaves
them: the constructor body assigns only `this.options` (a reference),
`this.parent`, and the per-level accessor closures; `_logBuffer`,
`_logBufferInterval`, `_writeAttempts`, `_writePending` and
`_lastWrittenAt` are left undefined (`logBuffer`/`logBufferInterval`
`none` here; the numeric/boolean ones live in `WriteState` above). -/
structure StashLoggerObj where
  optionsRef : ObjId
  parentRef : Option Nat
  logBuffer : Option (List LogRecord)
  logBufferInterval : Option Nat
deriving DecidableEq, Repr

/-- Module plus instances state. -/
structure SysState where
  heap : Heap
  loggers : List StashLoggerObj
deriving DecidableEq, Repr

/-- State right after the module loads: the one `loggerDefaults` object,
no instances. -/
def initSysState (handleWindow handleProcess : Bool) : SysState :=
  { heap := [(defaultsId, loggerDefaultsMap handleWindow handleProcess)],
    loggers := [] }

/-- The constructor `new StashLogger(parent, options)` with the arguments already
normalized (the instanceof shuffle done): assigns the caller's options
onto the module-level `loggerDefaults` object and stores that same
reference as `this.options`; appends the instance and returns its
index.  `callerOpts` is the own-property snapshot of `options || {}` at
call time. -/
def constructStashLogger (st : SysState) (parent : Option Nat)
    (callerOpts : OptMap) : SysState × Nat :=
  let hr := objectAssign st.heap defaultsId callerOpts
  let logger : StashLoggerObj :=
    { optionsRef := hr.2, parentRef := parent, logBuffer := none,
      logBufferInterval := none }
  ({ heap := hr.1, loggers := st.loggers ++ [logger] }, st.loggers.length)

/-- The method `extend(options)`: `new StashLogger(this, Object.assign(this.options,
options))` — first mutates the parent's options object in place, then
constructs the child passing that same object (read as its own-property
snapshot after the mutation). -/
def extendLogger (st : SysState) (selfIdx : Nat) (callerOpts : OptMap) :
    SysState × Nat :=
  let self := (st.loggers[selfIdx]?).getD
    { optionsRef := defaultsId, parentRef := none, logBuffer := none,
      logBufferInterval := none }
  let hr := objectAssign st.heap self.optionsRef callerOpts
  constructStashLogger { st with heap := hr.1 } (some selfIdx) (heapGet hr.1 hr.2)

/-- The options logger `idx` currently observes through its stored
reference. -/
def effectiveOption (st : SysState) (idx : Nat) (k : String) : Option OptVal :=
  match st.loggers[idx]? with
  | none => none
  | some l => optLookup (heapGet st.heap l.optionsRef) k

/-- The instance object a construction returns. -/
def newlyConstructed (st : SysState) (parent : Option Nat)
    (callerOpts : OptMap) : StashLoggerObj :=
  ((constructStashLogger st parent callerOpts).1.loggers[(constructStashLogger
      st parent callerOpts).2]?).getD
    { optionsRef := defaultsId, parentRef := none, logBuffer := none,
      logBufferInterval := none }

/-- The system state after one root logger has been constructed with a
caller option `dog = 2`, used by C8's witness. -/
def c8Start : SysState :=
  (constructStashLogger (initSysState false false) none [("dog", OptVal.num 2)]).1

/-! ## `_bufferLogs` and the uninitialized `_logBuffer`
(src/index.js:147-149, 32-49, 172-186)

```js
_bufferLogs(logs) {
  logs.forEach(log => this._logBuffer.push(log));
}
```

The constructor never assigns `this._logBuffer`; the only assignments to
it in the module are `this._logBuffer = write.remainingLogs` inside the
two completion handlers of `_scheduleLogWrite` (modelled by
`scheduleWriteCompletion` above). -/

/-- The method `_bufferLogs(logs)`: pushing each record onto `this._logBuffer`.
With `_logBuffer` undefined (`none`), the first callback invocation
throws a TypeError (cannot read `push` of undefined); an empty `logs`
array never invokes the callback. -/
def bufferLogsCall (logBuffer : Option (List LogRecord))
    (logs : List LogRecord) : Except JsError (Option (List LogRecord)) :=
  match logBuffer, logs with
  | _, [] => .ok logBuffer
  | none, _ :: _ => .error .typeError
  | some buf, ls => .ok (some (buf ++ ls))

/-! ## `attach` / `detach` (src/index.js:51-82)

```js
attach() {
  if (this.parent) {
    throw new StashLoggerError('Method attach() can only be called on the root logger');
  }
  const {handleWindow, handleProcess} = this.options;
  if (handleWindow) { window.addEventListener('error', this._handleWindowLog); }
  if (handleProcess) { process.on('uncaughtException', this._handleProcessLog); }
  this._logBufferInterval = setInterval(this._scheduleLogWrite, this.options.bufferCheckInterval);
  return this;
}

detach() {
  if (this.parent) {
    throw new StashLoggerError('Method detach() can only be called on the root logger');
  }
  ... removes the listeners ...
  if (this._logBufferInterval) {
    clearInterval(this._logBufferInterval);
    this._logBufferInterval = null;
  }
  return this;
}
```

The window/process listener registrations are host-environment effects
outside the instance state; the timer is modelled by its handle. -/

/-- The module's error class (src/index.js:25-30), carrying a message. -/
structure StashLoggerError where
  message : String
deriving DecidableEq, Repr

/-- The method `attach()`: throws off the root; on the root, registers the global
hooks and stores the periodic `_scheduleLogWrite` timer's handle. -/
def attach (l : StashLoggerObj) (newTimerId : Nat) :
    Except StashLoggerError StashLoggerObj :=
  if l.parentRef.isSome then
    .error { message := "Method attach() can only be called on the root logger" }
  else
    .ok { l with logBufferInterval := some newTimerId }

/-- The method `detach()`: throws off the root; on the root, deregisters the hooks
and, when a timer handle is present, clears the interval and nulls the
handle. -/
def detach (l : StashLoggerObj) : Except StashLoggerError StashLoggerObj :=
  if l.parentRef.isSome then
    .error { message := "Method detach() can only be called on the root logger" }
  else if l.logBufferInterval.isSome then
    .ok { l with logBufferInterval := none }
  else
    .ok l

/-- Did the call return normally? -/
def exceptOk {ε α : Type} : Except ε α → Bool
  | .ok _ => true
  | .error _ => false

/-- A root instance and a child instance (as `extend` produces: the
child's `parent` is the root), for C10's witness. -/
def cRoot : StashLoggerObj :=
  { optionsRef := defaultsId, parentRef := none, logBuffer := none,
    logBufferInterval := none }

/-- A non-root instance: its `parent` is set. -/
def cChild : StashLoggerObj :=
  { optionsRef := defaultsId, parentRef := some 0, logBuffer := none,
    logBufferInterval := none }

/-! ## Immediate send: `<level>Immediately` → `_handleLog` →
`_logImmediately` (src/index.js:41-48, 101-116, 138-145)

```js
this[`${level}Immediately`] = function() {
  return this._handleLog(level, arguments, true);
};

_isImportant(level) {
  const {logLevel, logLevels} = this.options;
  const threshold = logLevels.indexOf(logLevel);
  const importance = logLevels.indexOf(level);
  return importance >= threshold;
}

_logImmediately(level, logs, context = {}) {
  const newContext = Object.assign(this.options.context, context);
  if (this.parent) {
    return this.parent._logImmediately(level, logs, newContext);
  }
  logs = logs.map(log => this._buildLog(level, log, newContext));
  return this._sendLogs(this._package(logs));
}
```

On the root, `_logImmediately` builds the records, packages them, and
then calls `this._sendLogs(...)` — but no method named `_sendLogs` is
defined anywhere in the class (and the constructor only adds the
per-level accessors, none named `_sendLogs`), so the call throws
`TypeError: this._sendLogs is not a function` and `_makeRequest` is
never reached.  Note `_writePending` is not consulted anywhere on this
path: the crash happens whether or not a scheduled write is in flight. -/

/-- The method names `class StashLogger` defines (src/index.js:32-267),
in source order. -/
def stashLoggerMethods : List String :=
  ["constructor", "attach", "detach", "extend", "_fatalLevel",
   "_handleWindowLog", "_handleProcessLog", "_isImportant", "_handleLog",
   "_buildLog", "_logEventually", "_logImmediately", "_bufferLogs",
   "_package", "_scheduleLogWrite", "_nextWrite", "_sendPayload",
   "_makeRequest"]

/-- Semantics of `Array.prototype.indexOf`: index of the first occurrence, `-1` when
absent. -/
def jsIndexOfAux (s : String) : List String → Nat → Int
  | [], _ => -1
  | x :: xs, k => if x = s then (k : Int) else jsIndexOfAux s xs (k + 1)

/-- The call `logLevels.indexOf(s)`. -/
def jsIndexOf (l : List String) (s : String) : Int :=
  jsIndexOfAux s l 0

/-- The method `_isImportant(level)`: `importance >= threshold` over the configured
level list. -/
def isImportant (logLevels : List String) (logLevel level : String) : Bool :=
  jsIndexOf logLevels logLevel ≤ jsIndexOf logLevels level

/-- The default `_package` result (src/index.js:151-160): the wire
object `{app: {appId}, traces: logs}` (the nested `app` object holds
only `appId`). -/
structure Payload where
  appId : Option String
  traces : List LogRecord
deriving DecidableEq, Repr

/-- How a root-logger `_logImmediately` call ends. -/
inductive ImmediateResult where
  /-- the packaged payload was handed to a send routine -/
  | reachedTransport (p : Payload)
  /-- `this._sendLogs` is undefined: TypeError, nothing is sent -/
  | typeErrorNoSendLogs (packaged : Payload)
deriving DecidableEq, Repr

/-- The method `_logImmediately` on the root logger, after the records have been
built: packages them and invokes `this._sendLogs` — which exists only if
the class defines it. -/
def logImmediatelyRoot (appId : Option String) (_writePending : Bool)
    (logs : List LogRecord) : ImmediateResult :=
  let packaged : Payload := { appId := appId, traces := logs }
  if "_sendLogs" ∈ stashLoggerMethods then
    .reachedTransport packaged
  else
    .typeErrorNoSendLogs packaged

/-! ## Theorems -/

/-- With a positive bound, the first iteration of `_nextWrite`'s loop
on the method-valued `logs` throws at `logs.slice(0, 0)`. -/
theorem nextWriteAux_bufferLogs_pos (package : List LogRecord → String)
    (b : Nat) (hb : 0 < b) :
    nextWriteAux package b bufferLogsBinding (jsLength bufferLogsBinding) 0 ""
      = .error .typeError := by
  have hg : ("" : String).length < b ∧ 0 < jsLength bufferLogsBinding := by
    refine ⟨?_, by decide⟩
    simpa using hb
  show nextWriteAux package b bufferLogsBinding (0 + 1) 0 "" = .error .typeError
  simp only [nextWriteAux]
  rw [if_pos hg]
  rfl

/-- Whatever the bound, `_nextWrite` on the method-valued `logs` throws:
in the loop body when the bound is positive, at the remainder slice when
the bound is 0. -/
theorem nextWrite_bufferLogs_typeError (package : List LogRecord → String)
    (b : Nat) : nextWrite package b bufferLogsBinding = .error .typeError := by
  cases b with
  | zero => rfl
  | succ n =>
    unfold nextWrite
    rw [nextWriteAux_bufferLogs_pos package (n + 1) (Nat.succ_pos n)]

/-- C1, amended.  For every buffer and size bound, `_nextWrite` chooses
no prefix at all — by halving search or otherwise: `const logs =
this._bufferLogs` binds the `_bufferLogs` method rather than the
`_logBuffer` array, `logs.slice` is undefined on a function value, and
every invocation throws a TypeError before a payload or remainder is
returned (inside the first loop iteration when the bound is positive,
at the remainder computation when the bound is 0). -/
theorem nextWrite_never_chooses_prefix (package : List LogRecord → String)
    (bufferMaxPayload : Nat) (buffer : Option (List LogRecord)) :
    nextWriteOnInstance package bufferMaxPayload buffer = .error .typeError :=
  nextWrite_bufferLogs_typeError package bufferMaxPayload

/-- C1, counterexample.  The claim asserts the prefix sent by
`_nextWrite` is the deterministic result of the spec's halving search.
On the concrete four-record buffer (5 serialized characters per record)
with bound 12, the halving search stops at prefix length 2, but the
code throws a TypeError and yields no prefix boundary at all — in
particular not the halving search's payload/remainder. -/
theorem nextWrite_not_halving_search :
    halvingBoundary cPackage 12 cLogs = 2 ∧
    nextWriteOnInstance cPackage 12 (some cLogs) = .error .typeError ∧
    nextWriteOnInstance cPackage 12 (some cLogs) ≠
      .ok (cPackage (cLogs.take (halvingBoundary cPackage 12 cLogs)),
           cLogs.drop (halvingBoundary cPackage 12 cLogs)) := by
  exact ⟨by decide, by decide, by decide⟩

/-- C2, counterexample.  The claim asserts `_nextWrite` returns a
payload of serialized length at most the bound — except when the first
record alone exceeds it, which would then be removed — and the exact
remainder after the chosen prefix.  On the four-record buffer with
bound 12 the call returns nothing at all: it throws a TypeError, even
though a single record packages to length 5 ≤ 12, so the exception
clause cannot apply; no record is removed and no remainder is
produced. -/
theorem nextWrite_throws_no_payload :
    nextWriteOnInstance cPackage 12 (some cLogs) = .error .typeError ∧
    (cPackage (cLogs.take 1)).length ≤ 12 := by
  exact ⟨by decide, by decide⟩

/-- C2, amended.  For every bound, `_nextWrite` returns no payload and
permanently drops nothing: with a positive bound the first loop
iteration's `logs.slice(0, 0)` call throws before any prefix is
packaged, and with bound 0 the loop exits immediately with the empty
payload whereupon the remainder computation `logs.slice(index)` throws;
either way the TypeError propagates out of every invocation and no
payload, record removal, or remainder is ever produced. -/
theorem nextWrite_no_payload_no_drop (package : List LogRecord → String)
    (bufferMaxPayload : Nat) :
    (0 < bufferMaxPayload →
      nextWriteAux package bufferMaxPayload bufferLogsBinding
        (jsLength bufferLogsBinding) 0 "" = .error .typeError) ∧
    (bufferMaxPayload = 0 →
      nextWriteAux package bufferMaxPayload bufferLogsBinding
        (jsLength bufferLogsBinding) 0 "" = .ok (0, "") ∧
      jsSliceDrop bufferLogsBinding 0 = .error .typeError) ∧
    (∀ buffer, nextWriteOnInstance package bufferMaxPayload buffer
      = .error .typeError) := by
  refine ⟨?_, ?_, ?_⟩
  · intro hb
    exact nextWriteAux_bufferLogs_pos package bufferMaxPayload hb
  · intro hb
    subst hb
    exact ⟨rfl, rfl⟩
  · intro buffer
    exact nextWrite_bufferLogs_typeError package bufferMaxPayload

/-- Witness for C2's amended theorem, at the default bound 15360 and at
bound 0. -/
theorem nextWrite_no_payload_no_drop_witness :
    nextWriteAux cPackage 15360 bufferLogsBinding (jsLength bufferLogsBinding) 0 ""
      = .error .typeError ∧
    (nextWriteAux cPackage 0 bufferLogsBinding (jsLength bufferLogsBinding) 0 ""
      = .ok (0, "") ∧
     jsSliceDrop bufferLogsBinding 0 = .error .typeError) ∧
    nextWriteOnInstance cPackage 15360 (some cLogs) = .error .typeError :=
  ⟨(nextWrite_no_payload_no_drop cPackage 15360).1 (by decide),
   (nextWrite_no_payload_no_drop cPackage 0).2.1 rfl,
   (nextWrite_no_payload_no_drop cPackage 15360).2.2 (some cLogs)⟩

/-- Inversion for `_makeRequest`: the only rejection it ever produces is
the pass-through of superagent's network/timeout error, which carries no
`origin` and no `recovery`. -/
theorem makeRequestEnd_rejected_eq (ev : TransportEvent) (e : ErrObj)
    (h : makeRequestEnd ev = .rejected e) : e = transportErr := by
  cases ev with
  | networkFailure =>
    simp only [makeRequestEnd] at h
    exact ((Settle.rejected.injEq _ _).mp h).symm
  | httpResponse res =>
    simp only [makeRequestEnd] at h
    split_ifs at h

theorem applyFinally_outcome (r : SendFinal) :
    (applyFinally r).outcome = r.outcome := by
  cases r with
  | mk o s a => cases o <;> rfl

theorem applyFinally_attemptsMade (r : SendFinal) :
    (applyFinally r).attemptsMade = r.attemptsMade := by
  cases r with
  | mk o s a => cases o <;> rfl

theorem applyFinally_writeAttempts (r : SendFinal) :
    (applyFinally r).state.writeAttempts = r.state.writeAttempts := by
  cases r with
  | mk o s a => cases o <;> rfl

theorem applyFinally_bound (r : SendFinal) :
    (applyFinally r).state.bufferMaxPayloadOpt = r.state.bufferMaxPayloadOpt := by
  cases r with
  | mk o s a => cases o <;> rfl

/-- Unfolding `_sendPayload` on an attempt whose transport event is a
network failure (the only event kind that reaches the `catch` handler):
the dead `reduce-payload` shrink test is resolved away. -/
theorem sendPayload_cons_rejected (now : Nat) (st : WriteState) (ev : TransportEvent)
    (rest : List TransportEvent) (hev : makeRequestEnd ev = .rejected transportErr) :
    sendPayload now st (ev :: rest) =
      if st.bufferMaxWriteRetries ≤ st.writeAttempts + 1 then
        { outcome := .fulfilledWithError transportErr,
          state := { st with writeAttempts := st.writeAttempts + 1, writePending := false },
          attemptsMade := 1 }
      else
        let r := applyFinally (sendPayload now
          { st with writeAttempts := st.writeAttempts + 1, writePending := true } rest)
        { r with attemptsMade := r.attemptsMade + 1 } := by
  simp [sendPayload, hev, transportErr]

/-- The method `_sendPayload` never rejects: its `catch` handler returns (does not
rethrow), so every settled run is a fulfillment. -/
theorem sendPayload_never_rejects (now : Nat) :
    ∀ (evs : List TransportEvent) (st : WriteState) (e : ErrObj),
      (sendPayload now st evs).outcome ≠ .rejectedWith e := by
  intro evs
  induction evs with
  | nil => intro st e; simp [sendPayload]
  | cons ev rest ih =>
    intro st e
    cases hev : makeRequestEnd ev with
    | resolved v => simp [sendPayload, hev]
    | never => simp [sendPayload, hev]
    | rejected e0 =>
      have he0 : e0 = transportErr := makeRequestEnd_rejected_eq ev e0 hev
      subst he0
      rw [sendPayload_cons_rejected now st ev rest hev]
      by_cases hc : st.bufferMaxWriteRetries ≤ st.writeAttempts + 1
      · rw [if_pos hc]
        simp
      · rw [if_neg hc]
        intro hcon
        have : (applyFinally (sendPayload now
            { st with writeAttempts := st.writeAttempts + 1, writePending := true }
            rest)).outcome = .rejectedWith e := hcon
        rw [applyFinally_outcome] at this
        exact ih _ e this

/-- Every error value a settled `_sendPayload` carries is the untyped
superagent network error: no `origin`, no `recovery`. -/
theorem sendPayload_error_untyped (now : Nat) :
    ∀ (evs : List TransportEvent) (st : WriteState) (e : ErrObj),
      (sendPayload now st evs).outcome = .fulfilledWithError e → e = transportErr := by
  intro evs
  induction evs with
  | nil => intro st e h; simp [sendPayload] at h
  | cons ev rest ih =>
    intro st e h
    cases hev : makeRequestEnd ev with
    | resolved v => simp [sendPayload, hev] at h
    | never => simp [sendPayload, hev] at h
    | rejected e0 =>
      have he0 : e0 = transportErr := makeRequestEnd_rejected_eq ev e0 hev
      subst he0
      rw [sendPayload_cons_rejected now st ev rest hev] at h
      by_cases hc : st.bufferMaxWriteRetries ≤ st.writeAttempts + 1
      · rw [if_pos hc] at h
        simpa using h.symm
      · rw [if_neg hc] at h
        have h2 : (applyFinally (sendPayload now
            { st with writeAttempts := st.writeAttempts + 1, writePending := true }
            rest)).outcome = .fulfilledWithError e := h
        rw [applyFinally_outcome] at h2
        exact ih _ e h2

/-- The payload size bound `options.bufferMaxPayload` is unchanged by
`_sendPayload`, whatever transport events occur: the shrink branch
requires `error.recovery === 'reduce-payload'`, and no delivered error
carries a `recovery` property. -/
theorem sendPayload_bound_unchanged (now : Nat) :
    ∀ (evs : List TransportEvent) (st : WriteState),
      (sendPayload now st evs).state.bufferMaxPayloadOpt = st.bufferMaxPayloadOpt := by
  intro evs
  induction evs with
  | nil => intro st; simp [sendPayload]
  | cons ev rest ih =>
    intro st
    cases hev : makeRequestEnd ev with
    | resolved v => simp [sendPayload, hev]
    | never => simp [sendPayload, hev]
    | rejected e0 =>
      have he0 : e0 = transportErr := makeRequestEnd_rejected_eq ev e0 hev
      subst he0
      rw [sendPayload_cons_rejected now st ev rest hev]
      by_cases hc : st.bufferMaxWriteRetries ≤ st.writeAttempts + 1
      · rw [if_pos hc]
      · rw [if_neg hc]
        have h1 : ({ applyFinally (sendPayload now
            { st with writeAttempts := st.writeAttempts + 1, writePending := true } rest) with
            attemptsMade := (applyFinally (sendPayload now
              { st with writeAttempts := st.writeAttempts + 1, writePending := true }
              rest)).attemptsMade + 1 } : SendFinal).state.bufferMaxPayloadOpt
            = (applyFinally (sendPayload now
              { st with writeAttempts := st.writeAttempts + 1, writePending := true }
              rest)).state.bufferMaxPayloadOpt := rfl
        rw [h1, applyFinally_bound, ih]

/-- A fulfilled-successfully `_sendPayload` run leaves the attempt
counter reset to `0`. -/
theorem sendPayload_success_resets (now : Nat) :
    ∀ (evs : List TransportEvent) (st : WriteState),
      (sendPayload now st evs).outcome = .fulfilledOk →
        (sendPayload now st evs).state.writeAttempts = 0 := by
  intro evs
  induction evs with
  | nil => intro st h; simp [sendPayload] at h
  | cons ev rest ih =>
    intro st h
    cases hev : makeRequestEnd ev with
    | resolved v => simp [sendPayload, hev]
    | never => simp [sendPayload, hev] at h
    | rejected e0 =>
      have he0 : e0 = transportErr := makeRequestEnd_rejected_eq ev e0 hev
      subst he0
      rw [sendPayload_cons_rejected now st ev rest hev] at h ⊢
      by_cases hc : st.bufferMaxWriteRetries ≤ st.writeAttempts + 1
      · rw [if_pos hc] at h
        simp at h
      · rw [if_neg hc] at h ⊢
        have h2 : (applyFinally (sendPayload now
            { st with writeAttempts := st.writeAttempts + 1, writePending := true }
            rest)).outcome = .fulfilledOk := h
        rw [applyFinally_outcome] at h2
        have h3 := ih _ h2
        have h4 : ({ applyFinally (sendPayload now
            { st with writeAttempts := st.writeAttempts + 1, writePending := true } rest) with
            attemptsMade := (applyFinally (sendPayload now
              { st with writeAttempts := st.writeAttempts + 1, writePending := true }
              rest)).attemptsMade + 1 } : SendFinal).state.writeAttempts
            = (applyFinally (sendPayload now
              { st with writeAttempts := st.writeAttempts + 1, writePending := true }
              rest)).state.writeAttempts := rfl
        rw [h4, applyFinally_writeAttempts]
        exact h3

/-- Attempt-count bound: started below the retry ceiling, `_sendPayload`
makes at most `bufferMaxWriteRetries - writeAttempts` transport attempts
regardless of how many failures the transport would go on to deliver. -/
theorem sendPayload_attempts_le (now : Nat) :
    ∀ (evs : List TransportEvent) (st : WriteState),
      st.writeAttempts < st.bufferMaxWriteRetries →
        (sendPayload now st evs).attemptsMade ≤
          st.bufferMaxWriteRetries - st.writeAttempts := by
  intro evs
  induction evs with
  | nil => intro st hlt; simp [sendPayload]; omega
  | cons ev rest ih =>
    intro st hlt
    cases hev : makeRequestEnd ev with
    | resolved v => simp [sendPayload, hev]; omega
    | never => simp [sendPayload, hev]; omega
    | rejected e0 =>
      have he0 : e0 = transportErr := makeRequestEnd_rejected_eq ev e0 hev
      subst he0
      rw [sendPayload_cons_rejected now st ev rest hev]
      by_cases hc : st.bufferMaxWriteRetries ≤ st.writeAttempts + 1
      · rw [if_pos hc]
        simp
        omega
      · rw [if_neg hc]
        have h2 := ih { st with writeAttempts := st.writeAttempts + 1,
                                writePending := true } (by simp; omega)
        simp only at h2
        have h4 : ({ applyFinally (sendPayload now
            { st with writeAttempts := st.writeAttempts + 1, writePending := true } rest) with
            attemptsMade := (applyFinally (sendPayload now
              { st with writeAttempts := st.writeAttempts + 1, writePending := true }
              rest)).attemptsMade + 1 } : SendFinal).attemptsMade
            = (applyFinally (sendPayload now
              { st with writeAttempts := st.writeAttempts + 1, writePending := true }
              rest)).attemptsMade + 1 := rfl
        rw [h4, applyFinally_attemptsMade]
        omega

/-- C4, evaluation at the failing input.  The claim (and the code's own
intent, src/index.js:213-215 and 250-259) is that an HTTP 413 shrinks
`bufferMaxPayload` to 80% before a rebuilt next attempt.  What the code
does on a 413 response: the callback executes `error.recovery = recovery`
on the null `error`, throwing a TypeError before `reject(reason)`, so the
`_makeRequest` promise never settles, no `catch` handler ever observes a
`reduce-payload` hint, no further attempt is made, and the bound stays
15360 (not 0.8 × 15360 = 12288). -/
theorem http413_crashes_no_shrink :
    makeRequestEnd (.httpResponse { status := 413, bodyMessage := none }) = .never ∧
    (sendPayload 0 freshWriteState
      [.httpResponse { status := 413, bodyMessage := none }]).outcome = .neverSettles ∧
    (sendPayload 0 freshWriteState
      [.httpResponse { status := 413, bodyMessage := none }]).state.bufferMaxPayloadOpt
      = 15360 ∧
    (sendPayload 0 freshWriteState
      [.httpResponse { status := 413, bodyMessage := none }]).attemptsMade = 1 := by
  refine ⟨by decide, by decide, by decide, by decide⟩

/-- C5, counterexample.  The claim asserts the per-payload attempt
counter starts at 1 on the first attempt.  `_writeAttempts` is instance
state that a retry-ceiling-exhausted send leaves at the ceiling (the
`catch` just returns the error, resetting nothing): the next payload's
first attempt then runs with counter 4, not 1, and that payload gets
only a single attempt. -/
theorem retry_counter_not_reset_after_terminal :
    stAfterTerminal.writeAttempts = 3 ∧
    (sendPayload 0 stAfterTerminal [.networkFailure]).state.writeAttempts = 4 ∧
    (sendPayload 0 stAfterTerminal [.networkFailure]).attemptsMade = 1 := by
  exact ⟨by decide, by decide, by decide⟩

/-- C5, amended.  For every payload: when the counter already sits at or
past the ceiling (as after a terminal failure, which does not reset it)
exactly one transport attempt is made; when it starts below the
ceiling, at most the remaining budget `bufferMaxWriteRetries -
writeAttempts` attempts are made — so never more than
`bufferMaxWriteRetries` (default 3) from a reset counter, and no
further attempt once the ceiling is reached.  The counter increments
from its prior instance value (it is 1 on the first attempt only when
it was 0: a fresh instance or one whose previous send succeeded) and
resets to 0 on transport success. -/
theorem sendPayload_retry_ceiling_behavior (now : Nat) (st : WriteState)
    (evs : List TransportEvent) :
    (st.bufferMaxWriteRetries ≤ st.writeAttempts →
      (sendPayload now st evs).attemptsMade = 1) ∧
    (st.writeAttempts < st.bufferMaxWriteRetries →
      (sendPayload now st evs).attemptsMade ≤
        st.bufferMaxWriteRetries - st.writeAttempts) ∧
    ((sendPayload now st evs).outcome = .fulfilledOk →
      (sendPayload now st evs).state.writeAttempts = 0) ∧
    freshWriteState.bufferMaxWriteRetries = 3 := by
  refine ⟨?_, sendPayload_attempts_le now evs st,
    sendPayload_success_resets now evs st, rfl⟩
  intro hc
  cases evs with
  | nil => simp [sendPayload]
  | cons ev rest =>
    cases hev : makeRequestEnd ev with
    | resolved v => simp [sendPayload, hev]
    | never => simp [sendPayload, hev]
    | rejected e0 =>
      have he0 : e0 = transportErr := makeRequestEnd_rejected_eq ev e0 hev
      subst he0
      rw [sendPayload_cons_rejected now st ev rest hev, if_pos (by omega)]

/-- Witness for C5's amended theorem: the state a terminal failure left
behind gets exactly one attempt; a fresh default state gets at most 3
even with five failures on offer; a success resets the counter to 0. -/
theorem sendPayload_retry_ceiling_behavior_witness :
    (sendPayload 0 stAfterTerminal [.networkFailure]).attemptsMade = 1 ∧
    (sendPayload 0 freshWriteState (List.replicate 5 .networkFailure)).attemptsMade ≤
      freshWriteState.bufferMaxWriteRetries - freshWriteState.writeAttempts ∧
    (sendPayload 0 freshWriteState
      [.httpResponse { status := 200, bodyMessage := none }]).state.writeAttempts = 0 :=
  ⟨(sendPayload_retry_ceiling_behavior 0 stAfterTerminal [.networkFailure]).1 (by decide),
   (sendPayload_retry_ceiling_behavior 0 freshWriteState
      (List.replicate 5 .networkFailure)).2.1 (by decide),
   (sendPayload_retry_ceiling_behavior 0 freshWriteState
      [.httpResponse { status := 200, bodyMessage := none }]).2.2.1 (by decide)⟩

/-- C6, counterexample.  The claim asserts every terminal failure is a
*rejected* result carrying an error with `origin ∈ ` server/client (and
a recovery hint in the 413 case).  Exhausting the default ceiling with
three network failures makes `_sendPayload` FULFILL with the superagent
error, which carries no `origin` at all; and a non-retryable client
HTTP failure (400) never settles the promise, so nothing surfaces. -/
theorem terminal_failure_not_rejected :
    (sendPayload 0 freshWriteState
      [.networkFailure, .networkFailure, .networkFailure]).outcome
      = .fulfilledWithError { origin := none, recovery := none } ∧
    (sendPayload 0 freshWriteState
      [.httpResponse { status := 400, bodyMessage := none }]).outcome = .neverSettles := by
  exact ⟨by decide, by decide⟩

/-- C6, amended.  Whenever a `_sendPayload` run carries an error value
at all, it does so by fulfillment, never rejection, and the error is
untyped: no `origin` and no `recovery` property (the classification in
`_makeRequest` assigns them to the null callback error and crashes). -/
theorem sendPayload_terminal_failures_fulfill (now : Nat) (st : WriteState)
    (evs : List TransportEvent) (e : ErrObj)
    (h : (sendPayload now st evs).outcome = .rejectedWith e ∨
         (sendPayload now st evs).outcome = .fulfilledWithError e) :
    (sendPayload now st evs).outcome = .fulfilledWithError e ∧
    e.origin = none ∧ e.recovery = none := by
  rcases h with h | h
  · exact absurd h (sendPayload_never_rejects now evs st e)
  · have he := sendPayload_error_untyped now evs st e h
    subst he
    exact ⟨h, rfl, rfl⟩

/-- Witness for C6's amended theorem at three network failures. -/
theorem sendPayload_terminal_failures_fulfill_witness :
    (sendPayload 0 freshWriteState
      [.networkFailure, .networkFailure, .networkFailure]).outcome
      = .fulfilledWithError { origin := none, recovery := none } ∧
    ({ origin := none, recovery := none } : ErrObj).origin = none ∧
    ({ origin := none, recovery := none } : ErrObj).recovery = none :=
  sendPayload_terminal_failures_fulfill 0 freshWriteState
    [.networkFailure, .networkFailure, .networkFailure]
    { origin := none, recovery := none } (Or.inr (by decide))

/-- C3, counterexample.  The claim asserts a client-classified terminal
failure surfaces a fatal error while leaving the buffer unchanged.  On a
422 client HTTP failure the transport callback crashes, the send never
settles, and neither completion handler runs: the buffer is indeed
unchanged but no fatal error is ever surfaced.  And when retries are
exhausted by failures whose error is NOT server-tagged (`origin` is
absent — the scheduler's `reason.origin === 'server'` test would not
match it), the chain fulfills, so the `then` handler still purges the
flushed prefix and nothing surfaces. -/
theorem scheduler_client_failure_no_fatal :
    (sendPayload 0 freshWriteState
      [.httpResponse { status := 422, bodyMessage := none }]).outcome = .neverSettles ∧
    scheduleWriteCompletion (some [cRecord, cRecord]) [cRecord]
      (sendPayload 0 freshWriteState
        [.httpResponse { status := 422, bodyMessage := none }]).outcome
      = (some [cRecord, cRecord], .neverSettles) ∧
    scheduleWriteCompletion (some [cRecord, cRecord]) [cRecord]
      (sendPayload 0 freshWriteState (List.replicate 3 .networkFailure)).outcome
      = (some [cRecord], .fulfilled) := by
  exact ⟨by decide, by decide, by decide⟩

/-- C3, amended.  When a scheduled write's send settles — success or
exhausted retries, whatever the cause — the `then` handler replaces
`_logBuffer` with `write.remainingLogs` and nothing is surfaced, because
`_sendPayload` fulfills instead of rejecting (the origin-discriminating
`catch` branches are unreachable); when the send never settles (every
HTTP-status failure), the buffer is left as it was and no fatal error
surfaces. -/
theorem scheduler_completion_behavior (logBuffer : Option (List LogRecord))
    (remainingLogs : List LogRecord) (now : Nat) (st : WriteState)
    (evs : List TransportEvent) :
    ((sendPayload now st evs).outcome = .neverSettles →
      scheduleWriteCompletion logBuffer remainingLogs (sendPayload now st evs).outcome
        = (logBuffer, .neverSettles)) ∧
    ((sendPayload now st evs).outcome ≠ .neverSettles →
      scheduleWriteCompletion logBuffer remainingLogs (sendPayload now st evs).outcome
        = (some remainingLogs, .fulfilled)) := by
  constructor
  · intro h
    rw [h]
    rfl
  · intro h
    cases hout : (sendPayload now st evs).outcome with
    | fulfilledOk => rfl
    | fulfilledWithError e => rfl
    | rejectedWith e => exact absurd hout (sendPayload_never_rejects now evs st e)
    | neverSettles => exact absurd hout h

/-- Witness for C3's amended theorem: a successful send purges. -/
theorem scheduler_completion_behavior_witness :
    scheduleWriteCompletion (some [cRecord]) []
      (sendPayload 0 freshWriteState
        [.httpResponse { status := 200, bodyMessage := none }]).outcome
      = (some [], .fulfilled) :=
  (scheduler_completion_behavior (some [cRecord]) [] 0 freshWriteState
    [.httpResponse { status := 200, bodyMessage := none }]).2 (by decide)

theorem optLookup_optAssign (target src : OptMap) (k : String) (v : OptVal)
    (h : optLookup src k = some v) : optLookup (optAssign target src) k = some v := by
  simp only [optLookup, optAssign] at h ⊢
  induction src with
  | nil => simp [List.lookup] at h
  | cons p rest ih =>
    cases p with
    | mk k0 v0 =>
      simp only [List.cons_append, List.lookup_cons] at h ⊢
      by_cases hk : (k == k0)
      · simpa [hk] using h
      · simp only [hk] at h ⊢
        exact ih h

theorem heapGet_cons_self (h : Heap) (i : ObjId) (m : OptMap) :
    heapGet ((i, m) :: h) i = m := by
  simp [heapGet, List.lookup_cons]

/-- All instance `options` references point at `loggerDefaults`; the
constructor preserves this and makes the new instance comply. -/
theorem construct_preserves_aliasing (st : SysState) (parent : Option Nat)
    (callerOpts : OptMap)
    (hall : ∀ l ∈ st.loggers, l.optionsRef = defaultsId) :
    ∀ l ∈ (constructStashLogger st parent callerOpts).1.loggers,
      l.optionsRef = defaultsId := by
  intro l hl
  simp only [constructStashLogger, objectAssign] at hl
  rcases List.mem_append.mp hl with hmem | hmem
  · exact hall l hmem
  · rcases List.mem_singleton.mp hmem with rfl
    rfl

/-- After any construction, a previously constructed logger observes the
just-assigned option values through its own `options` reference. -/
theorem effectiveOption_after_construct (st : SysState) (parent : Option Nat)
    (callerOpts : OptMap) (i : Nat) (k : String) (v : OptVal)
    (hi : i < st.loggers.length)
    (hall : ∀ l ∈ st.loggers, l.optionsRef = defaultsId)
    (hk : optLookup callerOpts k = some v) :
    effectiveOption (constructStashLogger st parent callerOpts).1 i k = some v := by
  have hidx : (constructStashLogger st parent callerOpts).1.loggers[i]?
      = st.loggers[i]? := by
    simp only [constructStashLogger]
    exact List.getElem?_append_left hi
  have hmem : st.loggers[i] ∈ st.loggers := List.getElem_mem hi
  unfold effectiveOption
  rw [hidx, List.getElem?_eq_getElem hi]
  simp only
  rw [hall _ hmem]
  simp only [constructStashLogger, objectAssign]
  rw [heapGet_cons_self]
  exact optLookup_optAssign _ _ k v hk

/-- C8.  Every `StashLogger` instance aliases the single module-level
`loggerDefaults` object: the constructor `Object.assign`s the caller's
options onto it and stores that same reference, and `extend` assigns the
child's options onto the parent's (same) object before constructing the
child.  Hence constructing a second logger — or extending — overwrites
the effective options every previously constructed logger observes. -/
theorem options_object_shared (st : SysState) (parent : Option Nat)
    (callerOpts : OptMap) (i j : Nat) (k : String) (v : OptVal)
    (hi : i < st.loggers.length)
    (hall : ∀ l ∈ st.loggers, l.optionsRef = defaultsId)
    (hk : optLookup callerOpts k = some v) :
    (∀ l ∈ (constructStashLogger st parent callerOpts).1.loggers,
      l.optionsRef = defaultsId) ∧
    (newlyConstructed st parent callerOpts).optionsRef = defaultsId ∧
    effectiveOption (constructStashLogger st parent callerOpts).1 i k = some v ∧
    effectiveOption (extendLogger st j callerOpts).1 i k = some v := by
  refine ⟨construct_preserves_aliasing st parent callerOpts hall, ?_, ?_, ?_⟩
  · simp [newlyConstructed, constructStashLogger, objectAssign,
      List.getElem?_concat_length]
  · exact effectiveOption_after_construct st parent callerOpts i k v hi hall hk
  · have hself : ((st.loggers[j]?).getD
        { optionsRef := defaultsId, parentRef := none, logBuffer := none,
          logBufferInterval := none }).optionsRef = defaultsId := by
      cases hj : st.loggers[j]? with
      | none => rfl
      | some l =>
        have hm : l ∈ st.loggers := by
          rcases List.getElem?_eq_some.mp hj with ⟨hlt, hEq⟩
          exact hEq ▸ List.getElem_mem hlt
        simpa using hall l hm
    simp only [extendLogger, objectAssign, hself]
    rw [heapGet_cons_self]
    exact effectiveOption_after_construct
      { st with heap := (defaultsId,
          optAssign (heapGet st.heap defaultsId) callerOpts) :: st.heap }
      (some j) (optAssign (heapGet st.heap defaultsId) callerOpts) i k v hi hall
      (optLookup_optAssign _ _ k v hk)

/-- Witness for C8: constructing a second logger with `dog = 3` (or
extending through any logger with `dog = 3`) changes what the FIRST
logger reads for `dog` from 2 to 3. -/
theorem options_object_shared_witness :
    effectiveOption c8Start 0 "dog" = some (OptVal.num 2) ∧
    effectiveOption (constructStashLogger c8Start none [("dog", OptVal.num 3)]).1
      0 "dog" = some (OptVal.num 3) ∧
    effectiveOption (extendLogger c8Start 0 [("dog", OptVal.num 3)]).1
      0 "dog" = some (OptVal.num 3) := by
  have h := options_object_shared c8Start none [("dog", OptVal.num 3)] 0 0 "dog"
    (OptVal.num 3) (by decide) (by decide) (by decide)
  exact ⟨by decide, h.2.2.1, h.2.2.2⟩

/-- C9.  A freshly constructed root logger has `_logBuffer` undefined —
the constructor does not initialize it — so any non-empty batch of
accepted buffered log records reaching `_bufferLogs` before a completion
handler has ever assigned `_logBuffer` throws a TypeError. -/
theorem logBuffer_never_initialized (st : SysState) (parent : Option Nat)
    (callerOpts : OptMap) (logs : List LogRecord) (hne : logs ≠ []) :
    (newlyConstructed st parent callerOpts).logBuffer = none ∧
    bufferLogsCall (newlyConstructed st parent callerOpts).logBuffer logs
      = .error .typeError := by
  have h0 : (newlyConstructed st parent callerOpts).logBuffer = none := by
    simp [newlyConstructed, constructStashLogger, objectAssign,
      List.getElem?_concat_length]
  refine ⟨h0, ?_⟩
  rw [h0]
  cases logs with
  | nil => exact absurd rfl hne
  | cons a tl => rfl

/-- Witness for C9 on a fresh default root logger and one record. -/
theorem logBuffer_never_initialized_witness :
    (newlyConstructed (initSysState false false) none []).logBuffer = none ∧
    bufferLogsCall (newlyConstructed (initSysState false false) none []).logBuffer
      [cRecord] = .error .typeError :=
  logBuffer_never_initialized (initSysState false false) none [] [cRecord] (by decide)

/-- C10.  `attach()` and `detach()` throw a `StashLoggerError` exactly
when the logger has a non-null parent; on the root, `attach` stores the
fresh periodic-write timer handle and `detach` leaves the handle null
(clearing it when one was present). -/
theorem attach_detach_root_only (l : StashLoggerObj) (tid : Nat) :
    exceptOk (attach l tid) = l.parentRef.isNone ∧
    exceptOk (detach l) = l.parentRef.isNone ∧
    (l.parentRef = none →
      attach l tid = .ok { l with logBufferInterval := some tid } ∧
      detach l = .ok { l with logBufferInterval := none }) := by
  refine ⟨?_, ?_, ?_⟩
  · cases hp : l.parentRef <;> simp [attach, exceptOk, hp]
  · cases hp : l.parentRef <;> cases hti : l.logBufferInterval <;>
      simp [detach, exceptOk, hp, hti]
  · intro hp
    constructor
    · simp [attach, hp]
    · cases hti : l.logBufferInterval with
      | none =>
        cases l with
        | mk o p b t =>
          simp only at hp hti
          subst hp
          subst hti
          simp [detach]
      | some t0 => simp [detach, hp, hti]

/-- Witness for C10: the child throws on both calls, the root succeeds
with the documented state changes. -/
theorem attach_detach_root_only_witness :
    exceptOk (attach cChild 7) = cChild.parentRef.isNone ∧
    exceptOk (detach cChild) = cChild.parentRef.isNone ∧
    attach cRoot 7 = .ok { cRoot with logBufferInterval := some 7 } ∧
    detach cRoot = .ok { cRoot with logBufferInterval := none } :=
  ⟨(attach_detach_root_only cChild 7).1,
   (attach_detach_root_only cChild 7).2.1,
   ((attach_detach_root_only cRoot 7).2.2 rfl).1,
   ((attach_detach_root_only cRoot 7).2.2 rfl).2⟩

/-- C7, evaluation at the failing input.  The claim (and the repo's own
test "should send logs immediately", which stubs `_makeRequest` and
asserts it is called) says an accepted `<level>Immediately` call reaches
Transport with the packaged records, even while `_writePending` is true.
What the code does: `errorImmediately('test')` on a default root logger
is accepted (`error` is at the threshold), the records are built and
packaged, and then the call throws a TypeError because `_sendLogs` is
not defined — whether or not a write is pending — so the payload never
reaches Transport. -/
theorem immediate_send_never_reaches_transport :
    isImportant ["log", "info", "warn", "error"] "error" "error" = true ∧
    "_sendLogs" ∉ stashLoggerMethods ∧
    logImmediatelyRoot (some "my-awesome-app") true [cRecord]
      = .typeErrorNoSendLogs { appId := some "my-awesome-app", traces := [cRecord] } ∧
    logImmediatelyRoot (some "my-awesome-app") false [cRecord]
      = .typeErrorNoSendLogs { appId := some "my-awesome-app", traces := [cRecord] } := by
  exact ⟨by decide, by decide, by decide, by decide⟩

end StashLogger
